import Mathlib

/-!
Verification of the resilience/consistency layer of Sago-Factu-Panama.

Shallow embedding of:
* the circuit breaker (`src/src/lib/encryption.ts`, second bundled document,
  class `CircuitBreaker`),
* the error classifier and retry strategy (`src/src/lib/hka/enhanced-soap-client.ts`,
  second bundled document, `classifyHKAError` / `getRetryStrategy`),
* the protected call executor (`EnhancedHKASOAPClient.executeWithProtection`),
* the status poller (`src/src/lib/hka/status-poller.ts`),
* the reconciliation worker (`src/unnamed/part_003`).

Conventions of the embedding:
* JS `number` timestamps and durations are `Int` (milliseconds); JS `Date.now()`
  is threaded as an explicit `now` argument; every wrapped operation is modelled
  as instantaneous, so only explicit sleeps advance the clock.
* A JS `async` operation is modelled by the value it settles to; a `throw`
  becomes an `Except.error` / explicit outcome constructor.
* Structure fields keep the source's names.
-/

namespace Sago

/-! ### Circuit breaker (encryption.ts bundle, lines 215-416) -/

inductive CircuitState where
  | CLOSED
  | OPEN
  | HALF_OPEN
deriving DecidableEq, Repr

structure CircuitBreakerConfig where
  failureThreshold : Nat
  successThreshold : Nat
  timeout : Int
  monitoringPeriod : Int
deriving DecidableEq, Repr

structure CircuitBreaker where
  state : CircuitState
  failures : Nat
  successes : Nat
  lastFailureTime : Option Int
  nextAttemptTime : Option Int
  failureTimestamps : List Int
  totalRequests : Nat
  totalFailures : Nat
  totalSuccesses : Nat
  config : CircuitBreakerConfig
deriving DecidableEq, Repr

/-- Constructor `new CircuitBreaker(config)`: all fields start at their declared initializers. -/
def CircuitBreaker.new (config : CircuitBreakerConfig) : CircuitBreaker :=
  { state := .CLOSED
    failures := 0
    successes := 0
    lastFailureTime := none
    nextAttemptTime := none
    failureTimestamps := []
    totalRequests := 0
    totalFailures := 0
    totalSuccesses := 0
    config := config }

/-- Source `DEFAULT_HKA_CIRCUIT_CONFIG` (encryption.ts bundle, lines 398-403). -/
def DEFAULT_HKA_CIRCUIT_CONFIG : CircuitBreakerConfig :=
  { failureThreshold := 5
    successThreshold := 2
    timeout := 60000
    monitoringPeriod := 120000 }

/-- Source `onSuccess` (lines 284-299): reset the failure window; in HALF_OPEN count
successes and close the circuit at `successThreshold`.  Note the source does not
touch `nextAttemptTime` here. -/
def CircuitBreaker.onSuccess (cb : CircuitBreaker) : CircuitBreaker :=
  let cb := { cb with
    totalSuccesses := cb.totalSuccesses + 1
    failures := 0
    failureTimestamps := [] }
  if cb.state = .HALF_OPEN then
    let successes := cb.successes + 1
    if cb.config.successThreshold ≤ successes then
      { cb with state := .CLOSED, successes := 0 }
    else
      { cb with successes := successes }
  else
    cb

/-- Source `openCircuit` (lines 332-340). -/
def CircuitBreaker.openCircuit (cb : CircuitBreaker) (now : Int) : CircuitBreaker :=
  { cb with state := .OPEN, nextAttemptTime := some (now + cb.config.timeout) }

/-- Source `onFailure` (lines 304-327): record the failure timestamp, prune the window,
then reopen from HALF_OPEN or open when the window reaches `failureThreshold`. -/
def CircuitBreaker.onFailure (cb : CircuitBreaker) (now : Int) : CircuitBreaker :=
  let cutoff : Int := now - cb.config.monitoringPeriod
  let failureTimestamps := (cb.failureTimestamps ++ [now]).filter (fun t => cutoff < t)
  let cb := { cb with
    totalFailures := cb.totalFailures + 1
    failures := cb.failures + 1
    lastFailureTime := some now
    failureTimestamps := failureTimestamps }
  if cb.state = .HALF_OPEN then
    cb.openCircuit now
  else if cb.config.failureThreshold ≤ cb.failureTimestamps.length then
    cb.openCircuit now
  else
    cb

inductive ExecOutcome where
  | breakerOpen
  | opSuccess
  | opFailure
deriving DecidableEq, Repr

structure ExecResult where
  outcome : ExecOutcome
  cb : CircuitBreaker
  /-- How many times the wrapped `fn` was invoked during this call (0 or 1). -/
  invocations : Nat
deriving DecidableEq, Repr

/-- Source `execute` (lines 253-279).  `opFails` is the settled outcome the wrapped
`fn` would have if invoked.  In the source `Date.now() < this.nextAttemptTime!`
compares against a `null` coerced to `0` when the assertion is wrong, hence
`(… ).getD 0`. -/
def CircuitBreaker.execute (cb : CircuitBreaker) (now : Int) (opFails : Bool) : ExecResult :=
  let cb := { cb with totalRequests := cb.totalRequests + 1 }
  if cb.state = .OPEN then
    if now < cb.nextAttemptTime.getD 0 then
      { outcome := .breakerOpen, cb := cb, invocations := 0 }
    else
      let cb := { cb with state := .HALF_OPEN, successes := 0 }
      if opFails then
        { outcome := .opFailure, cb := cb.onFailure now, invocations := 1 }
      else
        { outcome := .opSuccess, cb := cb.onSuccess, invocations := 1 }
  else
    if opFails then
      { outcome := .opFailure, cb := cb.onFailure now, invocations := 1 }
    else
      { outcome := .opSuccess, cb := cb.onSuccess, invocations := 1 }

/-- Source `reset` (lines 361-369). -/
def CircuitBreaker.reset (cb : CircuitBreaker) : CircuitBreaker :=
  { cb with
    state := .CLOSED
    failures := 0
    successes := 0
    lastFailureTime := none
    nextAttemptTime := none
    failureTimestamps := [] }

/-- Helper: run a sequence of `execute` calls, keeping only the breaker state;
each list entry is a `(time, opFails)` pair. -/
def CircuitBreaker.runCalls (cb : CircuitBreaker) (calls : List (Int × Bool)) : CircuitBreaker :=
  calls.foldl (fun c call => (c.execute call.1 call.2).cb) cb

/-! ### Error classifier (enhanced-soap-client.ts bundle, lines 304-517) -/

inductive ErrorCategory where
  | AUTHENTICATION
  | VALIDATION
  | BUSINESS_RULE
  | SYSTEM
  | NETWORK
  | UNKNOWN
deriving DecidableEq, Repr

inductive ErrorSeverity where
  | CRITICAL
  | HIGH
  | MEDIUM
  | LOW
deriving DecidableEq, Repr

structure HKAError where
  code : String
  message : String
  category : ErrorCategory
  severity : ErrorSeverity
  retryable : Bool
  requiresManualIntervention : Bool
  suggestedAction : String
deriving DecidableEq, Repr

/-- A catalog entry: an `HKAError` minus its `message` (`Omit<HKAError, 'message'>`). -/
structure CatalogEntry where
  code : String
  category : ErrorCategory
  severity : ErrorSeverity
  retryable : Bool
  requiresManualIntervention : Bool
  suggestedAction : String
deriving DecidableEq, Repr

/-- Source `ERROR_CATALOG` (lines 333-445): own-property lookup in the object literal,
keyed by error code. -/
def ERROR_CATALOG : String → Option CatalogEntry
  | "ERR_001" => some
    { code := "ERR_001", category := .AUTHENTICATION, severity := .CRITICAL
      retryable := false, requiresManualIntervention := true
      suggestedAction := "Verificar credenciales HKA en configuración. Token inválido o expirado." }
  | "ERR_003" => some
    { code := "ERR_003", category := .AUTHENTICATION, severity := .CRITICAL
      retryable := false, requiresManualIntervention := true
      suggestedAction := "El RUC del emisor no coincide con el token. Verificar configuración de organización." }
  | "ERR_008" => some
    { code := "ERR_008", category := .AUTHENTICATION, severity := .HIGH
      retryable := false, requiresManualIntervention := true
      suggestedAction := "Punto de facturación no autorizado. Contactar a HKA para autorizar el punto." }
  | "ERR_002" => some
    { code := "ERR_002", category := .VALIDATION, severity := .HIGH
      retryable := false, requiresManualIntervention := false
      suggestedAction := "XML malformado. Verificar estructura del documento según esquema DGI." }
  | "ERR_005" => some
    { code := "ERR_005", category := .VALIDATION, severity := .HIGH
      retryable := false, requiresManualIntervention := false
      suggestedAction := "Los totales no cuadran. Recalcular subtotal, ITBMS y total." }
  | "ERR_006" => some
    { code := "ERR_006", category := .VALIDATION, severity := .HIGH
      retryable := false, requiresManualIntervention := false
      suggestedAction := "Tasa ITBMS inválida. Usar solo: 00 (0%), 01 (7%), 02 (10%), 03 (15%)." }
  | "ERR_007" => some
    { code := "ERR_007", category := .VALIDATION, severity := .MEDIUM
      retryable := false, requiresManualIntervention := false
      suggestedAction := "Fecha de emisión fuera de rango. Verificar que la fecha sea reciente y no futura." }
  | "ERR_009" => some
    { code := "ERR_009", category := .VALIDATION, severity := .HIGH
      retryable := false, requiresManualIntervention := false
      suggestedAction := "RUC del receptor inválido. Verificar formato y dígito verificador." }
  | "ERR_004" => some
    { code := "ERR_004", category := .BUSINESS_RULE, severity := .CRITICAL
      retryable := false, requiresManualIntervention := true
      suggestedAction := "Folios agotados. Contactar a HKA para adquirir más folios." }
  | "ERR_010" => some
    { code := "ERR_010", category := .BUSINESS_RULE, severity := .HIGH
      retryable := false, requiresManualIntervention := false
      suggestedAction := "Documento duplicado. Verificar que el número de factura no haya sido usado previamente." }
  | "ETIMEDOUT" => some
    { code := "ETIMEDOUT", category := .NETWORK, severity := .MEDIUM
      retryable := true, requiresManualIntervention := false
      suggestedAction := "Timeout de conexión. Reintentar automáticamente con backoff exponencial." }
  | "ECONNREFUSED" => some
    { code := "ECONNREFUSED", category := .NETWORK, severity := .HIGH
      retryable := true, requiresManualIntervention := false
      suggestedAction := "Conexión rechazada. Verificar conectividad de red y estado del servicio HKA." }
  | "ENOTFOUND" => some
    { code := "ENOTFOUND", category := .NETWORK, severity := .HIGH
      retryable := true, requiresManualIntervention := false
      suggestedAction := "DNS no encontrado. Verificar configuración de red y URLs de HKA." }
  | _ => none

/-- The JS values `classifyHKAError` (typed `any`) actually inspects: a thrown
string, a thrown object (with the optional `code`, `response.codigo`,
`response.code`, `message` fields it reads, and its `toString()` rendering), or
a `CircuitBreakerOpenError` instance (which has no `code` field and renders as
`name + ": " + message`). -/
inductive RawError where
  | str (s : String)
  | obj (code : Option String) (respCodigo : Option String) (respCode : Option String)
      (message : Option String) (toStr : String)
  | breakerOpenErr (message : String)
deriving DecidableEq, Repr

/-- JS truthiness of an optional string: `undefined` and `""` are falsy. -/
def truthy : Option String → Option String
  | none => none
  | some s => if s = "" then none else some s

/-- The `error.code || error.response?.codigo || error.response?.code ||
(typeof error === 'string' ? error : undefined)` chain (lines 452-456),
followed by the `errorCode ? … : undefined` truthiness guard. -/
def RawError.extractCode : RawError → Option String
  | .str s => truthy (some s)
  | .obj code respCodigo respCode _ _ =>
      match truthy code with
      | some c => some c
      | none =>
        match truthy respCodigo with
        | some c => some c
        | none => truthy respCode
  | .breakerOpenErr _ => none

/-- Source `error.toString()`. -/
def RawError.toStr : RawError → String
  | .str s => s
  | .obj _ _ _ _ toStr => toStr
  | .breakerOpenErr message => "CircuitBreakerOpenError: " ++ message

/-- Source `error.message || error.toString()`. -/
def RawError.messageOrToStr : RawError → String
  | .str s => s
  | .obj _ _ _ message toStr =>
      match truthy message with
      | some m => m
      | none => toStr
  | .breakerOpenErr message =>
      match truthy (some message) with
      | some m => m
      | none => "CircuitBreakerOpenError: " ++ message

/-- Substring search on the underlying character lists (kernel-reducible). -/
def subList (needle : List Char) : List Char → Bool
  | [] => needle.isEmpty
  | c :: t => needle.isPrefixOf (c :: t) || subList needle t

/-- Source `haystack.includes(needle)`. -/
def strContains (haystack needle : String) : Bool :=
  subList needle.data haystack.data

/-- Source `s.toLowerCase()`, modelled for the ASCII range (the fallback patterns the
classifier searches for are all ASCII). -/
def strToLower (s : String) : String :=
  String.mk (s.data.map Char.toLower)

/-- Source `classifyHKAError` (lines 450-517). -/
def classifyHKAError (error : RawError) : HKAError :=
  let errorCode := error.extractCode
  let catalogEntry :=
    match errorCode with
    | some c => ERROR_CATALOG c
    | none => none
  match catalogEntry with
  | some entry =>
    { code := entry.code
      message := error.messageOrToStr
      category := entry.category
      severity := entry.severity
      retryable := entry.retryable
      requiresManualIntervention := entry.requiresManualIntervention
      suggestedAction := entry.suggestedAction }
  | none =>
    let errorString := strToLower error.toStr
    if strContains errorString "timeout" || strContains errorString "timed out" then
      { code := "TIMEOUT", message := error.messageOrToStr, category := .NETWORK
        severity := .MEDIUM, retryable := true, requiresManualIntervention := false
        suggestedAction := "Timeout detectado. Reintentar con backoff exponencial." }
    else if strContains errorString "network" || strContains errorString "connection" then
      { code := "NETWORK_ERROR", message := error.messageOrToStr, category := .NETWORK
        severity := .HIGH, retryable := true, requiresManualIntervention := false
        suggestedAction := "Error de red. Verificar conectividad y reintentar." }
    else if strContains errorString "auth" || strContains errorString "unauthorized" then
      { code := "AUTH_ERROR", message := error.messageOrToStr, category := .AUTHENTICATION
        severity := .CRITICAL, retryable := false, requiresManualIntervention := true
        suggestedAction := "Error de autenticación. Verificar credenciales HKA." }
    else
      { code := "UNKNOWN", message := error.messageOrToStr, category := .UNKNOWN
        severity := .HIGH, retryable := false, requiresManualIntervention := true
        suggestedAction := "Error desconocido. Revisar logs y contactar soporte técnico." }

/-! ### Retry strategy (enhanced-soap-client.ts bundle, lines 528-567) -/

structure RetryStrategy where
  shouldRetry : Bool
  delayMs : Int
  maxRetries : Nat
deriving DecidableEq, Repr

/-- Source `getRetryStrategy` (lines 528-567). -/
def getRetryStrategy (error : HKAError) (attemptNumber : Nat) : RetryStrategy :=
  if error.retryable = false then
    { shouldRetry := false, delayMs := 0, maxRetries := 0 }
  else if error.category = .NETWORK ∨ error.category = .SYSTEM then
    if 5 ≤ attemptNumber then
      { shouldRetry := false, delayMs := 0, maxRetries := 5 }
    else
      { shouldRetry := true, delayMs := 2000 * 2 ^ attemptNumber, maxRetries := 5 }
  else
    { shouldRetry := false, delayMs := 0, maxRetries := 0 }

/-! ### Protected executor (enhanced-soap-client.ts bundle, lines 64-161) -/

/-- Source `PerformanceMetrics`. -/
structure PerformanceMetrics where
  method : String
  duration : Int
  success : Bool
  error : Option HKAError
  attempts : Nat
deriving DecidableEq, Repr

/-- Source `recordMetrics` (lines 154-161): push, then keep only the last 100. -/
def recordMetrics (metrics : List PerformanceMetrics) (m : PerformanceMetrics) :
    List PerformanceMetrics :=
  let metrics := metrics ++ [m]
  if 100 < metrics.length then metrics.drop 1 else metrics

/-- A value a protected call can terminate with by throwing: the breaker's own
`CircuitBreakerOpenError`, or any JS value `fn` threw (which is what the source
re-throws; an `HKAError` object is also a possible JS thrown value, which lets
the spec's wording be stated against the code's behavior). -/
inductive Thrown where
  | breakerOpen
  | raw (e : RawError)
  | classified (e : HKAError)
deriving DecidableEq, Repr

structure ProtectedCallResult where
  /-- Source `none` means the call returned normally, `some t` that it threw `t`. -/
  thrown : Option Thrown
  metrics : List PerformanceMetrics
  cb : CircuitBreaker
  /-- The clock after the call (retry sleeps advance it). -/
  now : Int
deriving DecidableEq, Repr

/-- Whether a raw JS value is an `instanceof CircuitBreakerOpenError`. -/
def RawError.isBreakerOpenInstance : RawError → Bool
  | .breakerOpenErr _ => true
  | _ => false

/-- Source `executeWithProtection` (lines 64-149).  `outcomes` lists the settled
outcome of each successive invocation of `fn` (`none` = resolves, `some e` =
rejects with `e`); one entry is consumed per loop iteration, and the modelled
run ends (result `none`) if the list runs out before the loop does.  `attempts`
is the loop counter value on entry (`0` at the top-level call). -/
def executeWithProtection (methodName : String) (cb : CircuitBreaker)
    (metrics : List PerformanceMetrics) (startTime now : Int)
    (outcomes : List (Option RawError)) (attempts : Nat) :
    Option ProtectedCallResult :=
  match outcomes with
  | [] => none
  | headOutcome :: rest =>
    let attempts := attempts + 1
    let er := cb.execute now headOutcome.isSome
    match er.outcome, headOutcome with
    | .breakerOpen, _ =>
      -- the breaker threw CircuitBreakerOpenError before invoking fn
      let classifiedError := classifyHKAError
        (.breakerOpenErr "Circuit breaker is OPEN. Next attempt pending")
      some { thrown := some .breakerOpen
             metrics := recordMetrics metrics
               { method := methodName, duration := now - startTime, success := false
                 error := some classifiedError, attempts := attempts }
             cb := er.cb, now := now }
    | .opSuccess, _ =>
      some { thrown := none
             metrics := recordMetrics metrics
               { method := methodName, duration := now - startTime, success := true
                 error := none, attempts := attempts }
             cb := er.cb, now := now }
    | .opFailure, some e =>
      let classifiedError := classifyHKAError e
      if e.isBreakerOpenInstance then
        -- `error instanceof CircuitBreakerOpenError` also matches a value fn threw
        some { thrown := some (.raw e)
               metrics := recordMetrics metrics
                 { method := methodName, duration := now - startTime, success := false
                   error := some classifiedError, attempts := attempts }
               cb := er.cb, now := now }
      else
        let retryStrategy := getRetryStrategy classifiedError (attempts - 1)
        if retryStrategy.shouldRetry = false ∨ retryStrategy.maxRetries < attempts then
          some { thrown := some (.raw e)
                 metrics := recordMetrics metrics
                   { method := methodName, duration := now - startTime, success := false
                     error := some classifiedError, attempts := attempts }
                 cb := er.cb, now := now }
        else
          executeWithProtection methodName er.cb metrics startTime
            (now + retryStrategy.delayMs) rest attempts
    | .opFailure, none =>
      -- unreachable: the breaker reports opFailure only when headOutcome is some
      none

/-! ### Status poller (status-poller.ts) -/

/-- The `estado` vocabulary the remote authority answers with. -/
inductive HkaEstado where
  | ACEPTADO
  | RECHAZADO
  | EN_PROCESO
  | ANULADO
deriving DecidableEq, Repr

/-- The remote `estadoDocumento` answer (the fields the poller and the
reconciliation worker read). -/
structure StatusResponse where
  estado : HkaEstado
  cufe : Option String
  mensaje : String
deriving DecidableEq, Repr

/-- Local invoice status vocabulary (Prisma `InvoiceStatus` values used by the
poller and the reconciliation worker). -/
inductive InvoiceStatus where
  | DRAFT
  | QUEUED
  | PROCESSING
  | AUTHORIZED
  | REJECTED
  | CANCELLED
  | ANNULLED
deriving DecidableEq, Repr

structure Organization where
  hkaTokenEmpresa : Option String
  hkaTokenPassword : Option String
deriving DecidableEq, Repr

/-- The invoice record fields the poller and reconciliation read or write.
(The pass-through document-identification fields and the `processedAt`
timestamp are not modelled; they never feed back into control flow.) -/
structure Invoice where
  status : InvoiceStatus
  cufe : Option String
  hkaStatus : Option HkaEstado
  hkaResponseMessage : Option String
  organization : Organization
deriving DecidableEq, Repr

/-- Source `POLLING_INTERVALS` (status-poller.ts lines 24-31). -/
def POLLING_INTERVALS : List Int := [5000, 10000, 30000, 60000, 120000, 300000]

/-- Source `MAX_POLLING_INTERVAL` (line 36). -/
def MAX_POLLING_INTERVAL : Int := 300000

/-- Source `MAX_POLLING_TIME` (line 41). -/
def MAX_POLLING_TIME : Int := 3600000

/-- Source `getNextInterval` (lines 54-59). -/
def getNextInterval (attemptNumber : Nat) : Int :=
  if attemptNumber < POLLING_INTERVALS.length then
    POLLING_INTERVALS.getD attemptNumber 0
  else
    MAX_POLLING_INTERVAL

inductive PollStatus where
  | ACEPTADO
  | RECHAZADO
  | EN_PROCESO
  | TIMEOUT
deriving DecidableEq, Repr

/-- Source `PollingResult` (lines 43-49). -/
structure PollingResult where
  status : PollStatus
  cufe : Option String
  message : String
  pollCount : Nat
  totalTime : Int
deriving DecidableEq, Repr

instance {ε α : Type} [DecidableEq ε] [DecidableEq α] : DecidableEq (Except ε α)
  | .error e, .error f =>
    if h : e = f then .isTrue (by rw [h]) else .isFalse (by intro c; cases c; exact h rfl)
  | .error _, .ok _ => .isFalse (by intro c; cases c)
  | .ok _, .error _ => .isFalse (by intro c; cases c)
  | .ok a, .ok b =>
    if h : a = b then .isTrue (by rw [h]) else .isFalse (by intro c; cases c; exact h rfl)

/-- The two `throw new Error(...)` sites of `pollDocumentStatus`. -/
inductive PollError where
  | invoiceNotFound
  | credentialsNotConfigured
deriving DecidableEq, Repr

structure PollOutcome where
  result : PollingResult
  /-- The stored invoice record after the run. -/
  invoice : Option Invoice
  /-- Every sleep performed, in order. -/
  waits : List Int
deriving DecidableEq, Repr

/-- JS falsiness of the credential check `!invoice.organization.hkaTokenEmpresa
|| !invoice.organization.hkaTokenPassword`. -/
def credsMissing (org : Organization) : Bool :=
  truthy org.hkaTokenEmpresa = none || truthy org.hkaTokenPassword = none

/-- The body of the `while (attemptCount < maxAttempts)` loop of
`pollDocumentStatus` (lines 73-187).  The guard is realized structurally by
`fuel = maxAttempts - attemptCount`, which falls by exactly 1 per iteration.
`queries` gives the remote `estadoDocumento` answer of the query issued at each
`attemptCount` value (`Except.error` = the query threw); queries are
instantaneous and sleeps are the only clock advances, so the loop-top
`elapsedTime` is the sum of the sleeps performed so far. -/
def pollLoop (store : Option Invoice) (queries : Nat → Except Unit StatusResponse)
    (maxAttempts : Nat) : Nat → Nat → Int → List Int → Except PollError PollOutcome
  | 0, attemptCount, elapsed, waits =>
    -- attemptCount = maxAttempts: fall out of the loop (lines 194-199)
    .ok { result :=
            { status := .TIMEOUT, cufe := none
              message := "Max polling attempts reached"
              pollCount := attemptCount, totalTime := elapsed }
          invoice := store, waits := waits }
  | fuel + 1, attemptCount, elapsed, waits =>
    if MAX_POLLING_TIME < elapsed then
      .ok { result :=
              { status := .TIMEOUT, cufe := none
                message := "Polling timeout exceeded"
                pollCount := attemptCount, totalTime := elapsed }
            invoice := store, waits := waits }
    else
      match store with
      | none => .error .invoiceNotFound
      | some invoice =>
        if invoice.status = .AUTHORIZED ∨ invoice.status = .REJECTED then
          .ok { result :=
                  { status := if invoice.status = .AUTHORIZED then .ACEPTADO else .RECHAZADO
                    cufe := invoice.cufe
                    message := invoice.hkaResponseMessage.getD "Status already finalized"
                    pollCount := attemptCount, totalTime := elapsed }
                invoice := store, waits := waits }
        else if credsMissing invoice.organization then
          .error .credentialsNotConfigured
        else
          match queries attemptCount with
          | .ok statusResponse =>
            if statusResponse.estado = .ACEPTADO ∨ statusResponse.estado = .RECHAZADO then
              let updated := { invoice with
                status := if statusResponse.estado = .ACEPTADO then
                    InvoiceStatus.AUTHORIZED else InvoiceStatus.REJECTED
                cufe := statusResponse.cufe
                hkaStatus := some statusResponse.estado
                hkaResponseMessage := some statusResponse.mensaje }
              .ok { result :=
                      { status := if statusResponse.estado = .ACEPTADO then
                            PollStatus.ACEPTADO else PollStatus.RECHAZADO
                        cufe := statusResponse.cufe
                        message := statusResponse.mensaje
                        pollCount := attemptCount + 1, totalTime := elapsed }
                    invoice := some updated, waits := waits }
            else
              -- attemptCount++ happens before the interval is computed (lines 171-172)
              let interval := getNextInterval (attemptCount + 1)
              pollLoop store queries maxAttempts fuel (attemptCount + 1)
                (elapsed + interval) (waits ++ [interval])
          | .error _ =>
            -- lines 179-186: same advance on a failed query
            let interval := getNextInterval (attemptCount + 1)
            pollLoop store queries maxAttempts fuel (attemptCount + 1)
              (elapsed + interval) (waits ++ [interval])

/-- Source `pollDocumentStatus` (lines 64-200); the source's default `maxAttempts`
is 20. -/
def pollDocumentStatus (store : Option Invoice)
    (queries : Nat → Except Unit StatusResponse) (maxAttempts : Nat) :
    Except PollError PollOutcome :=
  pollLoop store queries maxAttempts maxAttempts 0 0 []

/-! ### Reconciliation worker (src/unnamed/part_003) -/

/-- String rendering of the local status (template interpolation of the Prisma
enum values). -/
def InvoiceStatus.name : InvoiceStatus → String
  | .DRAFT => "DRAFT"
  | .QUEUED => "QUEUED"
  | .PROCESSING => "PROCESSING"
  | .AUTHORIZED => "AUTHORIZED"
  | .REJECTED => "REJECTED"
  | .CANCELLED => "CANCELLED"
  | .ANNULLED => "ANNULLED"

def HkaEstado.name : HkaEstado → String
  | .ACEPTADO => "ACEPTADO"
  | .RECHAZADO => "RECHAZADO"
  | .EN_PROCESO => "EN_PROCESO"
  | .ANULADO => "ANULADO"

structure ReportDetail where
  invoiceId : String
  numeroDocumento : String
  localStatus : String
  hkaStatus : String
  action : String
deriving DecidableEq, Repr

/-- Source `ReconciliationReport` (part_003 lines 18-30). -/
structure ReconciliationReport where
  totalChecked : Nat
  discrepanciesFound : Nat
  fixed : Nat
  errors : Nat
  details : List ReportDetail
deriving DecidableEq, Repr

structure ReconcileResult where
  hasDiscrepancy : Bool
  fixed : Bool
  details : String
deriving DecidableEq, Repr

structure ReconcileOutcome where
  result : ReconcileResult
  /-- Source `some v` = exactly one `prisma.invoice.update` wrote `v`; `none` = no
  store write for this record. -/
  updatedInvoice : Option Invoice
  /-- Number of `prisma.auditLog.create` calls made for this record. -/
  auditLogs : Nat
deriving DecidableEq, Repr

/-- Source `hkaToLocalStatus` (part_003 lines 97-102). -/
def hkaToLocalStatus : HkaEstado → InvoiceStatus
  | .ACEPTADO => .AUTHORIZED
  | .RECHAZADO => .REJECTED
  | .EN_PROCESO => .PROCESSING
  | .ANULADO => .ANNULLED

/-- Source `reconcileInvoice` (part_003 lines 35-164).  `store` is what
`prisma.invoice.findUnique` returns for the record's id; `query` is the settled
outcome of `hkaClient.estadoDocumento` (`Except.error msg` = it threw an error
whose `message` is `msg`; the internal `try/catch` turns that into a
no-discrepancy result). -/
def reconcileInvoice (store : Option Invoice) (query : Except String StatusResponse) :
    ReconcileOutcome :=
  match store with
  | none =>
    { result := { hasDiscrepancy := false, fixed := false, details := "Invoice not found" }
      updatedInvoice := none, auditLogs := 0 }
  | some invoice =>
    if invoice.status = .DRAFT ∨ invoice.status = .CANCELLED then
      { result := { hasDiscrepancy := false, fixed := false
                    details := "Skipped (draft or cancelled)" }
        updatedInvoice := none, auditLogs := 0 }
    else if credsMissing invoice.organization then
      { result := { hasDiscrepancy := false, fixed := false, details := "No HKA credentials" }
        updatedInvoice := none, auditLogs := 0 }
    else
      match query with
      | .error msg =>
        { result := { hasDiscrepancy := false, fixed := false, details := "Error: " ++ msg }
          updatedInvoice := none, auditLogs := 0 }
      | .ok statusResponse =>
        let expectedStatus := hkaToLocalStatus statusResponse.estado
        if invoice.status ≠ expectedStatus then
          { result := { hasDiscrepancy := true, fixed := true
                        details := "Fixed: " ++ invoice.status.name ++ " → " ++ expectedStatus.name }
            updatedInvoice := some { invoice with
              status := expectedStatus
              -- statusResponse.cufe || invoice.cufe
              cufe := match truthy statusResponse.cufe with
                      | some c => some c
                      | none => invoice.cufe
              hkaStatus := some statusResponse.estado
              hkaResponseMessage := some statusResponse.mensaje }
            auditLogs := 1 }
        else
          { result := { hasDiscrepancy := false, fixed := false, details := "Status matches" }
            updatedInvoice := none, auditLogs := 0 }

/-- The fields of a selected invoice row that `runReconciliation` itself reads
(for the report). -/
structure SelectedInvoice where
  id : String
  numeroDocumentoFiscal : String
  status : InvoiceStatus
deriving DecidableEq, Repr

/-- Behavior of one record's `reconcileInvoice(invoice.id)` promise:
`rejected` = the promise rejected (something threw outside the internal
`try`, e.g. the record re-load or the credential decryption); `settled` = it
fulfilled, with the given re-loaded record and remote-query outcome. -/
inductive RecordCheck where
  | rejected
  | settled (store : Option Invoice) (query : Except String StatusResponse)
deriving DecidableEq, Repr

/-- The `results.forEach` body of `runReconciliation` (part_003 lines 219-246)
applied to one record, updating the report; also returns the store write the
record performed, if any. -/
def reconciliationStep (report : ReconciliationReport)
    (entry : SelectedInvoice × RecordCheck) : ReconciliationReport × Option (String × Invoice) :=
  let (invoice, check) := entry
  match check with
  | .rejected => ({ report with errors := report.errors + 1 }, none)
  | .settled store query =>
    let o := reconcileInvoice store query
    let report :=
      if o.result.hasDiscrepancy then
        { report with
          discrepanciesFound := report.discrepanciesFound + 1
          fixed := if o.result.fixed then report.fixed + 1 else report.fixed
          details := report.details ++
            [{ invoiceId := invoice.id
               numeroDocumento := invoice.numeroDocumentoFiscal
               localStatus := invoice.status.name
               hkaStatus := "Unknown"
               action := o.result.details }] }
      else report
    (report, o.updatedInvoice.map (fun v => (invoice.id, v)))

/-- Source `runReconciliation` (part_003 lines 172-266) over the selected records,
each paired with its check behavior.  Batching (`batchSize = 5`,
`Promise.allSettled`, 2 s inter-batch delay) only affects timing:
`allSettled` preserves order, and the report is folded over the results in
selection order, so the report and the sequence of store writes are those of
this sequential fold.  The second component collects every
`prisma.invoice.update` call as an `(id, newValue)` pair, in order. -/
def reconciliationFold (acc : ReconciliationReport × List (String × Invoice))
    (records : List (SelectedInvoice × RecordCheck)) :
    ReconciliationReport × List (String × Invoice) :=
  records.foldl
    (fun acc entry =>
      let stepped := reconciliationStep acc.1 entry
      (stepped.1, acc.2 ++ stepped.2.toList))
    acc

def runReconciliation (records : List (SelectedInvoice × RecordCheck)) :
    ReconciliationReport × List (String × Invoice) :=
  reconciliationFold
    ({ totalChecked := records.length, discrepanciesFound := 0, fixed := 0
       errors := 0, details := [] }, [])
    records

/-! ### Concrete fixtures for the scenario theorems -/

/-- An organization with HKA credentials configured (encrypted at rest). -/
def orgOK : Organization :=
  { hkaTokenEmpresa := some "enc-token", hkaTokenPassword := some "enc-password" }

/-- A processing invoice with credentials configured. -/
def invoiceProcessing : Invoice :=
  { status := .PROCESSING, cufe := none, hkaStatus := none
    hkaResponseMessage := none, organization := orgOK }

/-- Remote answers for scenario C: still pending on the first three status
queries, terminal `ACEPTADO` from the fourth on. -/
def scenarioCQueries : Nat → Except Unit StatusResponse := fun n =>
  if n < 3 then .ok { estado := .EN_PROCESO, cufe := none, mensaje := "pending" }
  else .ok { estado := .ACEPTADO, cufe := some "CUFE-1", mensaje := "ok" }

/-- A validation failure (`ERR_002`), classified as not retryable. -/
def validationFailure : RawError :=
  .obj (some "ERR_002") none none (some "bad xml") "Error: bad xml"

/-- Scenario for C8: record 1's remote status query throws, record 2 already
matches. -/
def c8Records : List (SelectedInvoice × RecordCheck) :=
  [ (⟨"INV-1", "FAC-001", .PROCESSING⟩,
      .settled (some invoiceProcessing) (.error "ETIMEDOUT")),
    (⟨"INV-2", "FAC-002", .AUTHORIZED⟩,
      .settled (some { status := .AUTHORIZED, cufe := some "CUFE-2", hkaStatus := some .ACEPTADO
                       hkaResponseMessage := some "ok", organization := orgOK })
        (.ok { estado := .ACEPTADO, cufe := some "CUFE-2", mensaje := "ok" })) ]

/-- Scenario D records: A diverges (remote `ACEPTADO`, local `PROCESSING`),
B and C already match. -/
def scenarioDRecords : List (SelectedInvoice × RecordCheck) :=
  [ (⟨"A", "FAC-A", .PROCESSING⟩,
      .settled (some invoiceProcessing) (.ok { estado := .ACEPTADO, cufe := some "CUFE-A", mensaje := "Autorizado" })),
    (⟨"B", "FAC-B", .AUTHORIZED⟩,
      .settled (some { status := .AUTHORIZED, cufe := some "CUFE-B", hkaStatus := some .ACEPTADO
                       hkaResponseMessage := some "ok", organization := orgOK })
        (.ok { estado := .ACEPTADO, cufe := some "CUFE-B", mensaje := "ok" })),
    (⟨"C", "FAC-C", .REJECTED⟩,
      .settled (some { status := .REJECTED, cufe := none, hkaStatus := some .RECHAZADO
                       hkaResponseMessage := some "rechazado", organization := orgOK })
        (.ok { estado := .RECHAZADO, cufe := none, mensaje := "rechazado" })) ]

/-- The breaker state that refutes the C7 invariant: a default breaker driven
OPEN by five failures at times 0..4000 (`nextAttemptTime = 4000 + 60000`), then
two successful trial calls after the timeout elapsed. -/
def c7Breaker : CircuitBreaker :=
  (((CircuitBreaker.runCalls (CircuitBreaker.new DEFAULT_HKA_CIRCUIT_CONFIG)
      [(0, true), (1000, true), (2000, true), (3000, true), (4000, true)]).execute
      64000 false).cb.execute 65000 false).cb

/-- Per-record contribution to the reconciliation report and store writes, used
to state that `runReconciliation` processes every selected record
independently. -/
structure RecordSummary where
  errors : Nat
  discrepancies : Nat
  fixedCount : Nat
  details : List ReportDetail
  writes : List (String × Invoice)
deriving DecidableEq, Repr

def recordSummary (entry : SelectedInvoice × RecordCheck) : RecordSummary :=
  match entry.2 with
  | .rejected => { errors := 1, discrepancies := 0, fixedCount := 0, details := [], writes := [] }
  | .settled store query =>
    let o := reconcileInvoice store query
    { errors := 0
      discrepancies := if o.result.hasDiscrepancy then 1 else 0
      fixedCount := if o.result.hasDiscrepancy then (if o.result.fixed then 1 else 0) else 0
      details := if o.result.hasDiscrepancy then
          [{ invoiceId := entry.1.id
             numeroDocumento := entry.1.numeroDocumentoFiscal
             localStatus := entry.1.status.name
             hkaStatus := "Unknown"
             action := o.result.details }] else []
      writes := (o.updatedInvoice.map (fun v => (entry.1.id, v))).toList }

/-! ## Claim theorems -/

/-- C1: whenever the breaker is OPEN and `now` is before `nextAttemptTime`,
`execute` fails with `CircuitBreakerOpenError` and never invokes the wrapped
operation; concretely, with `failureThreshold = 5` and
`monitoringPeriod = 120000`, five failures within 10 s leave the breaker OPEN
and the immediately following call throws `CircuitBreakerOpenError` with zero
invocations of the wrapped function. -/
theorem C1_open_breaker_blocks_calls
    (cb : CircuitBreaker) (now t : Int) (opFails : Bool)
    (hstate : cb.state = .OPEN) (hnext : cb.nextAttemptTime = some t) (hnow : now < t) :
    ((cb.execute now opFails).outcome = .breakerOpen ∧
     (cb.execute now opFails).invocations = 0) ∧
    ((CircuitBreaker.runCalls (CircuitBreaker.new DEFAULT_HKA_CIRCUIT_CONFIG)
        [(0, true), (2000, true), (4000, true), (6000, true), (8000, true)]).state = .OPEN ∧
     ((CircuitBreaker.runCalls (CircuitBreaker.new DEFAULT_HKA_CIRCUIT_CONFIG)
        [(0, true), (2000, true), (4000, true), (6000, true), (8000, true)]).execute
        9000 false).outcome = .breakerOpen ∧
     ((CircuitBreaker.runCalls (CircuitBreaker.new DEFAULT_HKA_CIRCUIT_CONFIG)
        [(0, true), (2000, true), (4000, true), (6000, true), (8000, true)]).execute
        9000 false).invocations = 0) := by
  refine ⟨?_, by decide⟩
  simp [CircuitBreaker.execute, hstate, hnext, hnow]

/-- C1 witness: the general part applied to a concretely OPEN breaker. -/
theorem C1_open_breaker_blocks_calls_witness :
    (((CircuitBreaker.new DEFAULT_HKA_CIRCUIT_CONFIG).openCircuit 0).execute
        30000 false).outcome = .breakerOpen ∧
    (((CircuitBreaker.new DEFAULT_HKA_CIRCUIT_CONFIG).openCircuit 0).execute
        30000 false).invocations = 0 :=
  (C1_open_breaker_blocks_calls
    ((CircuitBreaker.new DEFAULT_HKA_CIRCUIT_CONFIG).openCircuit 0)
    30000 60000 false (by decide) (by decide) (by decide)).1

/-- C3: from an OPEN breaker with `timeout = 60000`, once `now` has reached
`nextAttemptTime` the next `execute` invokes the operation as a HALF_OPEN
trial; with `successThreshold = 2` one success leaves the breaker HALF_OPEN
and a second consecutive success closes it and clears the failure window,
while a single failure during the trial reopens it with
`nextAttemptTime = now + 60000`. -/
theorem C3_half_open_recovery
    (cb : CircuitBreaker) (t now now2 : Int)
    (hstate : cb.state = .OPEN) (hnext : cb.nextAttemptTime = some t) (hnow : t ≤ now)
    (hsucc : cb.config.successThreshold = 2) (htimeout : cb.config.timeout = 60000) :
    (cb.execute now false).invocations = 1 ∧
    (cb.execute now false).cb.state = .HALF_OPEN ∧
    ((cb.execute now false).cb.execute now2 false).cb.state = .CLOSED ∧
    ((cb.execute now false).cb.execute now2 false).cb.failureTimestamps = [] ∧
    (cb.execute now true).invocations = 1 ∧
    (cb.execute now true).cb.state = .OPEN ∧
    (cb.execute now true).cb.nextAttemptTime = some (now + 60000) := by
  simp [CircuitBreaker.execute, CircuitBreaker.onSuccess, CircuitBreaker.onFailure,
    CircuitBreaker.openCircuit, hstate, hnext, hsucc, htimeout, not_lt.mpr hnow]

/-- C3 witness: the recovery sequence on a concretely OPEN breaker. -/
theorem C3_half_open_recovery_witness :
    ((((CircuitBreaker.new DEFAULT_HKA_CIRCUIT_CONFIG).openCircuit 0).execute
        60000 false).cb.execute 61000 false).cb.state = .CLOSED ∧
    (((CircuitBreaker.new DEFAULT_HKA_CIRCUIT_CONFIG).openCircuit 0).execute
        60000 true).cb.nextAttemptTime = some 120000 := by
  have h := C3_half_open_recovery
    ((CircuitBreaker.new DEFAULT_HKA_CIRCUIT_CONFIG).openCircuit 0)
    60000 60000 61000 (by decide) (by decide) (by decide) (by decide) (by decide)
  exact ⟨h.2.2.1, h.2.2.2.2.2.2⟩

/-- C7 counterexample: drive a default breaker OPEN with five failures at time
0 (so `nextAttemptTime = 64000` would require `timeout` from the 5th failure at
4000), let the timeout elapse, and complete two successful trials: the breaker
is CLOSED after a completed `execute`, yet `nextAttemptTime` is still
`some 64000` — the claimed "non-null iff OPEN" invariant is false at this
state. -/
theorem C7_counterexample :
    c7Breaker.state = .CLOSED ∧ c7Breaker.nextAttemptTime = some 64000 ∧
    ¬ (c7Breaker.nextAttemptTime ≠ none ↔ c7Breaker.state = .OPEN) := by
  decide

/-- C7 amended: only one direction of the invariant holds between operations:
after construction and after `reset()` the breaker is CLOSED with
`nextAttemptTime` null, and every completed `execute` preserves
"state = OPEN → nextAttemptTime is non-null"; the converse direction fails
because neither the HALF_OPEN transition nor closing the circuit from
HALF_OPEN ever clears `nextAttemptTime`. -/
theorem C7_amended
    (c : CircuitBreakerConfig) (cb : CircuitBreaker) (now : Int) (opFails : Bool)
    (h : cb.state = .OPEN → cb.nextAttemptTime ≠ none) :
    ((CircuitBreaker.new c).state = .CLOSED ∧ (CircuitBreaker.new c).nextAttemptTime = none) ∧
    (cb.reset.state = .CLOSED ∧ cb.reset.nextAttemptTime = none) ∧
    ((cb.execute now opFails).cb.state = .OPEN →
      (cb.execute now opFails).cb.nextAttemptTime ≠ none) := by
  refine ⟨⟨rfl, rfl⟩, ⟨rfl, rfl⟩, ?_⟩
  simp only [CircuitBreaker.execute, CircuitBreaker.onSuccess, CircuitBreaker.onFailure,
    CircuitBreaker.openCircuit]
  split_ifs <;> simp_all

/-- C7 witness: the amended invariant applied to a concretely OPEN breaker. -/
theorem C7_amended_witness :
    (CircuitBreaker.new DEFAULT_HKA_CIRCUIT_CONFIG).nextAttemptTime = none ∧
    ((((CircuitBreaker.new DEFAULT_HKA_CIRCUIT_CONFIG).openCircuit 0).execute
        10 true).cb.state = .OPEN →
      (((CircuitBreaker.new DEFAULT_HKA_CIRCUIT_CONFIG).openCircuit 0).execute
        10 true).cb.nextAttemptTime ≠ none) := by
  have h := C7_amended DEFAULT_HKA_CIRCUIT_CONFIG
    ((CircuitBreaker.new DEFAULT_HKA_CIRCUIT_CONFIG).openCircuit 0) 10 true (by decide)
  exact ⟨h.1.2, h.2.2⟩

/-- C4: `getRetryStrategy` refuses to retry any non-retryable classified error,
returning `{shouldRetry := false, delayMs := 0, maxRetries := 0}`; for a
retryable NETWORK or SYSTEM error it retries with `delayMs = 2000 * 2 ^ n`
while `n < 5` and refuses from `n = 5` on. -/
theorem C4_retry_strategy (e : HKAError) (n : Nat) :
    (e.retryable = false → getRetryStrategy e n =
      { shouldRetry := false, delayMs := 0, maxRetries := 0 }) ∧
    (e.retryable = true → (e.category = .NETWORK ∨ e.category = .SYSTEM) →
      (n < 5 → getRetryStrategy e n =
        { shouldRetry := true, delayMs := 2000 * 2 ^ n, maxRetries := 5 }) ∧
      (5 ≤ n → getRetryStrategy e n =
        { shouldRetry := false, delayMs := 0, maxRetries := 5 })) := by
  constructor
  · intro h
    simp [getRetryStrategy, h]
  · intro h hc
    constructor
    · intro hn
      simp [getRetryStrategy, h, hc, Nat.not_le.mpr hn]
    · intro hn
      simp [getRetryStrategy, h, hc, hn]

/-- C4 witness: the strategy evaluated on the catalog's `ETIMEDOUT` NETWORK
error at attempts 3 and 5, and on the non-retryable `ERR_002` at attempt 7. -/
theorem C4_retry_strategy_witness :
    getRetryStrategy (classifyHKAError (.obj (some "ETIMEDOUT") none none none "t")) 3 =
      { shouldRetry := true, delayMs := 16000, maxRetries := 5 } ∧
    getRetryStrategy (classifyHKAError (.obj (some "ETIMEDOUT") none none none "t")) 5 =
      { shouldRetry := false, delayMs := 0, maxRetries := 5 } ∧
    getRetryStrategy (classifyHKAError validationFailure) 7 =
      { shouldRetry := false, delayMs := 0, maxRetries := 0 } := by
  refine ⟨?_, ?_, ?_⟩
  · have h := (C4_retry_strategy
      (classifyHKAError (.obj (some "ETIMEDOUT") none none none "t")) 3).2
      (by decide) (by decide) |>.1 (by decide)
    simpa using h
  · have h := (C4_retry_strategy
      (classifyHKAError (.obj (some "ETIMEDOUT") none none none "t")) 5).2
      (by decide) (by decide) |>.2 (by decide)
    exact h
  · exact (C4_retry_strategy (classifyHKAError validationFailure) 7).1 (by decide)

/-- C5: `classifyHKAError` is a total function of the inspected input (it is a
Lean function, hence never throws and is deterministic); for every input whose
extracted code hits the catalog it returns exactly the catalog's fixed
category/severity/retryable/requiresManualIntervention entry, and every input
with no recognized code and none of the fallback pattern substrings is
classified `UNKNOWN`, not retryable, requiring manual intervention. -/
theorem C5_classifier_total (e e2 : RawError) (c : String) (entry : CatalogEntry) :
    (e.extractCode = some c → ERROR_CATALOG c = some entry →
      classifyHKAError e =
        { code := entry.code, message := e.messageOrToStr, category := entry.category
          severity := entry.severity, retryable := entry.retryable
          requiresManualIntervention := entry.requiresManualIntervention
          suggestedAction := entry.suggestedAction }) ∧
    ((∀ c', e2.extractCode = some c' → ERROR_CATALOG c' = none) →
      strContains (strToLower e2.toStr) "timeout" = false →
      strContains (strToLower e2.toStr) "timed out" = false →
      strContains (strToLower e2.toStr) "network" = false →
      strContains (strToLower e2.toStr) "connection" = false →
      strContains (strToLower e2.toStr) "auth" = false →
      strContains (strToLower e2.toStr) "unauthorized" = false →
      classifyHKAError e2 =
        { code := "UNKNOWN", message := e2.messageOrToStr, category := .UNKNOWN
          severity := .HIGH, retryable := false, requiresManualIntervention := true
          suggestedAction := "Error desconocido. Revisar logs y contactar soporte técnico." }) := by
  constructor
  · intro hc hcat
    simp [classifyHKAError, hc, hcat]
  · intro hmiss h1 h2 h3 h4 h5 h6
    unfold classifyHKAError
    cases hc : e2.extractCode with
    | none => simp [h1, h2, h3, h4, h5, h6]
    | some c' => simp [hmiss c' hc, h1, h2, h3, h4, h5, h6]

/-- C5 witness: the catalog hit `ERR_004` and a fully unrecognized failure. -/
theorem C5_classifier_total_witness :
    classifyHKAError (.obj (some "ERR_004") none none (some "sin folios") "Error: sin folios") =
      { code := "ERR_004", message := "sin folios", category := .BUSINESS_RULE
        severity := .CRITICAL, retryable := false, requiresManualIntervention := true
        suggestedAction := "Folios agotados. Contactar a HKA para adquirir más folios." } ∧
    classifyHKAError (.str "algo raro") =
      { code := "UNKNOWN", message := "algo raro", category := .UNKNOWN
        severity := .HIGH, retryable := false, requiresManualIntervention := true
        suggestedAction := "Error desconocido. Revisar logs y contactar soporte técnico." } := by
  constructor
  · exact (C5_classifier_total
      (.obj (some "ERR_004") none none (some "sin folios") "Error: sin folios")
      (.str "algo raro") "ERR_004"
      { code := "ERR_004", category := .BUSINESS_RULE, severity := .CRITICAL
        retryable := false, requiresManualIntervention := true
        suggestedAction := "Folios agotados. Contactar a HKA para adquirir más folios." }).1
      (by decide) (by decide)
  · exact (C5_classifier_total
      (.obj (some "ERR_004") none none (some "sin folios") "Error: sin folios")
      (.str "algo raro") "ERR_004"
      { code := "ERR_004", category := .BUSINESS_RULE, severity := .CRITICAL
        retryable := false, requiresManualIntervention := true
        suggestedAction := "Folios agotados. Contactar a HKA para adquirir más folios." }).2
      (by decide) (by decide) (by decide) (by decide) (by decide) (by decide) (by decide)

/-- C6 counterexample: a protected call whose single attempt fails with the
non-retryable `ERR_002` validation failure terminates by re-throwing the
original raw error, which is not the structured `ClassifiedError` the claim
says is re-thrown (the classified value only goes into the recorded metric). -/
theorem C6_counterexample :
    (executeWithProtection "Enviar" (CircuitBreaker.new DEFAULT_HKA_CIRCUIT_CONFIG)
        [] 0 0 [some validationFailure] 0).map (fun r => r.thrown) =
      some (some (.raw validationFailure)) ∧
    Thrown.raw validationFailure ≠ Thrown.classified (classifyHKAError validationFailure) := by
  decide

/-- C6 amended: in the protected executor's call loop, for every failure that
is not a `CircuitBreakerOpenError` and whose retry decision says not to retry,
the executor records the failing `CallMetric` carrying the classified error and
re-throws the original error (not the classified one). -/
theorem C6_amended (methodName : String) (cb : CircuitBreaker)
    (metrics : List PerformanceMetrics) (startTime now : Int) (e : RawError)
    (rest : List (Option RawError)) (attempts : Nat)
    (hexec : (cb.execute now true).outcome = .opFailure)
    (hnotbo : e.isBreakerOpenInstance = false)
    (hnoretry : (getRetryStrategy (classifyHKAError e) attempts).shouldRetry = false) :
    executeWithProtection methodName cb metrics startTime now (some e :: rest) attempts =
      some { thrown := some (.raw e)
             metrics := recordMetrics metrics
               { method := methodName, duration := now - startTime, success := false
                 error := some (classifyHKAError e), attempts := attempts + 1 }
             cb := (cb.execute now true).cb
             now := now } := by
  simp only [executeWithProtection, Option.isSome_some]
  rcases hE : cb.execute now true with ⟨o, cbx, inv⟩
  rw [hE] at hexec
  simp only at hexec
  subst hexec
  simp [hnotbo, hnoretry]

/-- C6 witness: the amended behavior at a concrete non-retryable failure. -/
theorem C6_amended_witness :
    executeWithProtection "Enviar" (CircuitBreaker.new DEFAULT_HKA_CIRCUIT_CONFIG) [] 0 5
        [some validationFailure] 0 =
      some { thrown := some (.raw validationFailure)
             metrics := recordMetrics []
               { method := "Enviar", duration := 5 - 0, success := false
                 error := some (classifyHKAError validationFailure), attempts := 0 + 1 }
             cb := ((CircuitBreaker.new DEFAULT_HKA_CIRCUIT_CONFIG).execute 5 true).cb
             now := 5 } :=
  C6_amended "Enviar" (CircuitBreaker.new DEFAULT_HKA_CIRCUIT_CONFIG) [] 0 5
    validationFailure [] 0 (by decide) (by decide) (by decide)

/-- C2: evaluation at the claim's scenario — remote terminal on the 4th status
query.  The returned `pollCount` is 4 as claimed, but the waits performed are
`[10000, 30000, 60000]` (100000 ms total), not the claimed
`5000 + 10000 + 30000 = 45000` ms: `attemptCount` is incremented before the
interval is looked up, so `POLLING_INTERVALS[0] = 5000` is never used, which
contradicts the schedule documented in the source's own interval table
(cumulative 15 s / 45 s / …). -/
theorem C2_fourth_query_waits :
    (pollDocumentStatus (some invoiceProcessing) scenarioCQueries 20).map
        (fun o => (o.result.pollCount, o.waits, o.result.totalTime)) =
      .ok (4, [10000, 30000, 60000], 100000) ∧
    (10000 + 30000 + 60000 : Int) ≠ 5000 + 10000 + 30000 := by
  constructor
  · decide
  · decide

/-- C10: `pollDocumentStatus` does not return a `PollingResult` for every
input: with a positive attempt budget it throws (`Invoice … not found`) when
no local record matches the id, and throws (`HKA credentials not configured`)
when the record is in a non-terminal status and its organization has no HKA
credentials. -/
theorem C10_poller_throws (queries : Nat → Except Unit StatusResponse)
    (inv : Invoice) (maxAttempts : Nat) (hpos : 0 < maxAttempts)
    (hterm : ¬ (inv.status = .AUTHORIZED ∨ inv.status = .REJECTED))
    (hcreds : credsMissing inv.organization = true) :
    pollDocumentStatus none queries maxAttempts = .error .invoiceNotFound ∧
    pollDocumentStatus (some inv) queries maxAttempts = .error .credentialsNotConfigured := by
  obtain ⟨fuel, rfl⟩ : ∃ k, maxAttempts = k + 1 := ⟨maxAttempts - 1, by omega⟩
  constructor
  · simp [pollDocumentStatus, pollLoop, MAX_POLLING_TIME]
  · simp [pollDocumentStatus, pollLoop, MAX_POLLING_TIME, hterm, hcreds]

/-- C10 witness: a missing record and a processing record without credentials,
with the source's default budget of 20 attempts. -/
theorem C10_poller_throws_witness :
    pollDocumentStatus none scenarioCQueries 20 = .error .invoiceNotFound ∧
    pollDocumentStatus
        (some { status := .PROCESSING, cufe := none, hkaStatus := none
                hkaResponseMessage := none
                organization := { hkaTokenEmpresa := none, hkaTokenPassword := none } })
        scenarioCQueries 20 = .error .credentialsNotConfigured :=
  C10_poller_throws scenarioCQueries
    { status := .PROCESSING, cufe := none, hkaStatus := none
      hkaResponseMessage := none
      organization := { hkaTokenEmpresa := none, hkaTokenPassword := none } }
    20 (by decide) (by decide) (by decide)

/-- Shared helper: the reconciliation fold is fully determined by the per-record
summaries, i.e. every selected record is processed independently of the
outcomes of the records before it. -/
theorem reconciliationFold_eq (records : List (SelectedInvoice × RecordCheck))
    (rep : ReconciliationReport) (ws : List (String × Invoice)) :
    reconciliationFold (rep, ws) records =
      ({ totalChecked := rep.totalChecked
         discrepanciesFound :=
           rep.discrepanciesFound + (records.map (fun r => (recordSummary r).discrepancies)).sum
         fixed := rep.fixed + (records.map (fun r => (recordSummary r).fixedCount)).sum
         errors := rep.errors + (records.map (fun r => (recordSummary r).errors)).sum
         details := rep.details ++ (records.map (fun r => (recordSummary r).details)).flatten },
       ws ++ (records.map (fun r => (recordSummary r).writes)).flatten) := by
  induction records generalizing rep ws with
  | nil => simp [reconciliationFold]
  | cons r rs ih =>
    obtain ⟨sel, check⟩ := r
    rw [show reconciliationFold (rep, ws) ((sel, check) :: rs) =
        reconciliationFold ((reconciliationStep rep (sel, check)).1,
          ws ++ (reconciliationStep rep (sel, check)).2.toList) rs from rfl, ih]
    cases check with
    | rejected =>
      simp [reconciliationStep, recordSummary, Nat.add_assoc]
    | settled store query =>
      simp only [reconciliationStep, recordSummary]
      split_ifs <;>
        simp_all [Prod.ext_iff, ReconciliationReport.mk.injEq, Nat.add_assoc, List.append_assoc]

/-- C8 counterexample: over two records where record 1's remote status query
throws and record 2 already matches, the run is not aborted but the report is
`{totalChecked := 2, discrepanciesFound := 0, fixed := 0, errors := 0}` — the
failed query is swallowed inside `reconcileInvoice` as a no-discrepancy result
and is NOT counted in `errors`, contrary to the claim. -/
theorem C8_counterexample :
    (runReconciliation c8Records).1 =
      { totalChecked := 2, discrepanciesFound := 0, fixed := 0, errors := 0, details := [] } ∧
    (runReconciliation c8Records).1.errors ≠ 1 := by
  decide

/-- C8 amended: a failed remote status query for a record is caught inside
`reconcileInvoice` and reported as a non-discrepancy — it does not increment
the report's `errors` field; `errors` counts only per-record promise
rejections (failures thrown outside the internal try, e.g. record load or
credential decryption).  In all cases the run is not aborted: the report and
the store writes are exactly the independent per-record contributions of every
selected record. -/
theorem C8_per_record_isolation (records : List (SelectedInvoice × RecordCheck))
    (inv : Invoice) (msg : String)
    (hnd : ¬ (inv.status = .DRAFT ∨ inv.status = .CANCELLED))
    (hcreds : credsMissing inv.organization = false) :
    reconcileInvoice (some inv) (.error msg) =
      { result := { hasDiscrepancy := false, fixed := false, details := "Error: " ++ msg }
        updatedInvoice := none, auditLogs := 0 } ∧
    (runReconciliation records).1.totalChecked = records.length ∧
    (runReconciliation records).1.errors =
      (records.map (fun r => (recordSummary r).errors)).sum ∧
    (runReconciliation records).1.discrepanciesFound =
      (records.map (fun r => (recordSummary r).discrepancies)).sum ∧
    (runReconciliation records).1.fixed =
      (records.map (fun r => (recordSummary r).fixedCount)).sum ∧
    (runReconciliation records).1.details =
      (records.map (fun r => (recordSummary r).details)).flatten ∧
    (runReconciliation records).2 =
      (records.map (fun r => (recordSummary r).writes)).flatten := by
  refine ⟨?_, ?_⟩
  · simp [reconcileInvoice, hnd, hcreds]
  · rw [runReconciliation, reconciliationFold_eq]
    simp

/-- C8 witness: the amended statement at the concrete two-record scenario. -/
theorem C8_per_record_isolation_witness :
    reconcileInvoice (some invoiceProcessing) (.error "ETIMEDOUT") =
      { result := { hasDiscrepancy := false, fixed := false, details := "Error: ETIMEDOUT" }
        updatedInvoice := none, auditLogs := 0 } ∧
    (runReconciliation c8Records).1.errors =
      (c8Records.map (fun r => (recordSummary r).errors)).sum :=
  have h := C8_per_record_isolation c8Records invoiceProcessing "ETIMEDOUT"
    (by decide) (by decide)
  ⟨h.1, h.2.2.1⟩

/-- C9: a reconciled record whose local status already equals the status
derived from the remote answer receives no store write; concretely, over the
three records of scenario D (A diverging, B and C matching) the report is
`{totalChecked := 3, discrepanciesFound := 1, fixed := 1, errors := 0}` and the
only store write is A's status overwrite. -/
theorem C9_no_write_on_match (inv : Invoice) (resp : StatusResponse)
    (hmatch : inv.status = hkaToLocalStatus resp.estado) :
    (reconcileInvoice (some inv) (.ok resp)).updatedInvoice = none ∧
    runReconciliation scenarioDRecords =
      ({ totalChecked := 3, discrepanciesFound := 1, fixed := 1, errors := 0
         details := [{ invoiceId := "A", numeroDocumento := "FAC-A"
                       localStatus := "PROCESSING", hkaStatus := "Unknown"
                       action := "Fixed: PROCESSING → AUTHORIZED" }] },
       [("A", { status := .AUTHORIZED, cufe := some "CUFE-A"
                hkaStatus := some .ACEPTADO, hkaResponseMessage := some "Autorizado"
                organization := orgOK })]) := by
  refine ⟨?_, by decide⟩
  unfold reconcileInvoice
  dsimp only
  split_ifs with h1 h2 h3 <;> simp_all

/-- C9 witness: no write for a concretely matching record. -/
theorem C9_no_write_on_match_witness :
    (reconcileInvoice
        (some { status := .AUTHORIZED, cufe := some "CUFE-B", hkaStatus := some .ACEPTADO
                hkaResponseMessage := some "ok", organization := orgOK })
        (.ok { estado := .ACEPTADO, cufe := some "CUFE-B", mensaje := "ok" })).updatedInvoice =
      none :=
  (C9_no_write_on_match
    { status := .AUTHORIZED, cufe := some "CUFE-B", hkaStatus := some .ACEPTADO
      hkaResponseMessage := some "ok", organization := orgOK }
    { estado := .ACEPTADO, cufe := some "CUFE-B", mensaje := "ok" }
    (by decide)).1

end Sago
